import Mathlib

/-!
Verification of the `pycurious` package entry point
(`src/pycurious/__init__.py`) against its specification.

The source file is:

```
# -*- coding: utf-8 -*-
from .curie import CurieGrid, bouligand2009, tanaka1999, maus1995, ComputeTanaka
from .optimise import CurieOptimise
from .parallel import CurieParallel
from .mapping import transform_coordinates, grid, trim
```

We embed the Python module body as a list of statements in a small
statement language, and give it an executable semantics parameterised
by the namespaces of the four submodules (`curie`, `optimise`,
`parallel`, `mapping`), whose bodies are not part of the excerpt.
Executing a `from .m import a, b` statement binds the submodule name
`m` in the package namespace (CPython sets the submodule as an
attribute of the parent package when it is first imported) and then
binds each listed name to the object of the same name in `m`,
raising `ImportError` when `m` does not define it.

The statement language also contains the statement forms the spec
claims are absent from the entry module (function/class definitions,
assignments, and effectful expression statements), so that "the module
contains only imports and performs no side effects" is a statement
about this particular module body, not about the language.
-/

namespace Pycurious

/-- Observable side effects a Python statement could perform, as far as
the frame claims of the spec are concerned: opening a network
connection or writing a file. -/
inductive Effect where
  | network (target : String)
  | fileWrite (path : String)
  deriving DecidableEq, Repr

/-- Python module-level statement forms. The entry module of the
package only ever uses `fromImport`; the other forms embed the
statement kinds the spec asserts are absent (definitions of functions,
classes and constants, and effectful expression statements). -/
inductive Stmt where
  /-- `from .module import name1, name2, ...` -/
  | fromImport (module : String) (names : List String)
  /-- `def name(...): ...` -/
  | defFun (name : String)
  /-- `class name: ...` -/
  | defClass (name : String)
  /-- `name = ...` (binding a module-level constant) -/
  | assign (name : String)
  /-- an expression statement performing the given side effects -/
  | call (effects : List Effect)
  deriving DecidableEq, Repr

/-- An object bound in the package namespace: either a submodule
object, a value re-exported from a submodule, or an object the module
defined itself (by `def`, `class` or assignment). `α` is the type of
the objects living in the submodule namespaces. -/
inductive PyObj (α : Type) where
  | module (name : String)
  | value (v : α)
  | defined (name : String)
  deriving DecidableEq, Repr

/-- A Python namespace: an insertion-ordered dictionary from names to
objects, modelled as an association list without duplicate keys. -/
abbrev Ns (α : Type) : Type := List (String × PyObj α)

/-- Dictionary lookup: the first binding of the key, if any. -/
def lookupNs {α : Type} : Ns α → String → Option (PyObj α)
  | [], _ => none
  | (k1, v1) :: rest, k => if k1 = k then some v1 else lookupNs rest k

/-- Dictionary update with CPython insertion-order semantics: an
existing key keeps its position and gets the new value, a new key is
appended at the end. -/
def dictSet {α : Type} : Ns α → String → PyObj α → Ns α
  | [], k, v => [(k, v)]
  | (k1, v1) :: rest, k, v =>
    if k1 = k then (k1, v) :: rest else (k1, v1) :: dictSet rest k v

/-- The state a module body acts on: the module namespace being
populated, plus the trace of side effects performed so far. -/
structure PyState (α : Type) where
  ns : Ns α
  effects : List Effect

/-- Bind each name of a `from .m import ...` list in turn, looking the
name up in the submodule namespace `subNS m`; a missing name is an
`ImportError`. -/
def bindNames {α : Type} (subNS : String → String → Option α) (m : String) :
    List String → Ns α → Except String (Ns α)
  | [], ns => Except.ok ns
  | n :: rest, ns =>
    match subNS m n with
    | some v => bindNames subNS m rest (dictSet ns n (PyObj.value v))
    | none => Except.error ("ImportError: cannot import name " ++ n ++ " from " ++ m)

/-- Execute one statement. A `from .m import ...` statement first binds
the submodule name `m` itself (CPython sets the submodule as an
attribute of the parent package), then binds the imported names.
Definition statements bind the defined name; an expression statement
appends its effects to the trace. -/
def execStmt {α : Type} (subNS : String → String → Option α) (st : PyState α) :
    Stmt → Except String (PyState α)
  | Stmt.fromImport m names =>
    match bindNames subNS m names (dictSet st.ns m (PyObj.module m)) with
    | Except.ok ns2 => Except.ok { st with ns := ns2 }
    | Except.error e => Except.error e
  | Stmt.defFun n => Except.ok { st with ns := dictSet st.ns n (PyObj.defined n) }
  | Stmt.defClass n => Except.ok { st with ns := dictSet st.ns n (PyObj.defined n) }
  | Stmt.assign n => Except.ok { st with ns := dictSet st.ns n (PyObj.defined n) }
  | Stmt.call effs => Except.ok { st with effects := st.effects ++ effs }

/-- Execute a module body: the statements in order, stopping at the
first error. -/
def runStmts {α : Type} (subNS : String → String → Option α) :
    List Stmt → PyState α → Except String (PyState α)
  | [], st => Except.ok st
  | s :: rest, st =>
    match execStmt subNS st s with
    | Except.ok st2 => runStmts subNS rest st2
    | Except.error e => Except.error e

/-- The body of `src/pycurious/__init__.py`, statement by statement
(the leading `# -*- coding: utf-8 -*-` line is a comment, not a
statement). -/
def initModuleStmts : List Stmt :=
  [ Stmt.fromImport "curie"
      ["CurieGrid", "bouligand2009", "tanaka1999", "maus1995", "ComputeTanaka"],
    Stmt.fromImport "optimise" ["CurieOptimise"],
    Stmt.fromImport "parallel" ["CurieParallel"],
    Stmt.fromImport "mapping" ["transform_coordinates", "grid", "trim"] ]

/-- Importing the `pycurious` package: executing the entry module's
statements in an empty namespace with an empty effect trace, given the
namespaces of the four submodules. -/
def importPycurious {α : Type} (subNS : String → String → Option α) :
    Except String (PyState α) :=
  runStmts subNS initModuleStmts { ns := [], effects := [] }

/-- The raw lines of `src/pycurious/__init__.py`. -/
def initModuleLines : List String :=
  [ "# -*- coding: utf-8 -*-",
    "from .curie import CurieGrid, bouligand2009, tanaka1999, maus1995, ComputeTanaka",
    "from .optimise import CurieOptimise",
    "from .parallel import CurieParallel",
    "from .mapping import transform_coordinates, grid, trim" ]

/-- A line is a Python comment when its first character is the hash
sign (0x23). -/
def isCommentLine (s : String) : Bool :=
  match s.data with
  | c :: _ => c = Char.ofNat 35
  | [] => false

/-- A line is a `from ... import ...` statement line when it starts
with the keyword `from` followed by a space. -/
def isImportLine (s : String) : Bool :=
  match s.data with
  | c1 :: c2 :: c3 :: c4 :: c5 :: _ =>
    c1 = 'f' ∧ c2 = 'r' ∧ c3 = 'o' ∧ c4 = 'm' ∧ c5 = ' '
  | _ => false

/-- Whether a statement is a `from ... import ...` statement. -/
def isFromImport : Stmt → Bool
  | Stmt.fromImport _ _ => true
  | _ => false

/-- Whether a statement defines a name in the module itself (a
function, a class, or a constant bound by assignment), as opposed to
importing it. -/
def definesOwnName : Stmt → Bool
  | Stmt.defFun _ => true
  | Stmt.defClass _ => true
  | Stmt.assign _ => true
  | _ => false

/-- The names a module body re-exports: the names listed in its
`from ... import ...` statements, in order. -/
def reexportedNames : List Stmt → List String
  | [] => []
  | Stmt.fromImport _ ns :: rest => ns ++ reexportedNames rest
  | _ :: rest => reexportedNames rest

/-- The submodules a module body imports, in the order its
`from ... import ...` statements mention them. -/
def importedModules : List Stmt → List String
  | [] => []
  | Stmt.fromImport m _ :: rest => m :: importedModules rest
  | _ :: rest => importedModules rest

/-- Each re-exported name paired with the submodule it is imported
from, as written in the entry module. -/
def reexportSources : List (String × String) :=
  [ ("curie", "CurieGrid"), ("curie", "bouligand2009"), ("curie", "tanaka1999"),
    ("curie", "maus1995"), ("curie", "ComputeTanaka"),
    ("optimise", "CurieOptimise"),
    ("parallel", "CurieParallel"),
    ("mapping", "transform_coordinates"), ("mapping", "grid"), ("mapping", "trim") ]

/-- The ten re-exported symbols, in source order. -/
def theTenSymbols : List String :=
  [ "CurieGrid", "bouligand2009", "tanaka1999", "maus1995", "ComputeTanaka",
    "CurieOptimise", "CurieParallel", "transform_coordinates", "grid", "trim" ]

/-- The four submodules of the package, in import order. -/
def theFourSubmodules : List String :=
  ["curie", "optimise", "parallel", "mapping"]

/-- A name is private for the purposes of `from pycurious import *`
when it starts with an underscore. -/
def isPrivateName (s : String) : Bool :=
  match s.data with
  | c :: _ => c = Char.ofNat 95
  | [] => false

/-- The names exported by `from pycurious import *` when the module
defines no `__all__`: every bound name not starting with an
underscore. -/
def starExport {α : Type} (ns : Ns α) : List String :=
  (ns.map Prod.fst).filter (fun n => !(isPrivateName n))

/-- The namespace obtained by executing the entry module, given the
ten objects the submodules bind to the re-exported names, in CPython
insertion order: each `from .m import ...` statement first binds the
submodule `m`, then the names it imports. -/
def finalNs {α : Type} (g b t m ct co cp tc gr tr : α) : Ns α :=
  [ ("curie", PyObj.module "curie"),
    ("CurieGrid", PyObj.value g), ("bouligand2009", PyObj.value b),
    ("tanaka1999", PyObj.value t), ("maus1995", PyObj.value m),
    ("ComputeTanaka", PyObj.value ct),
    ("optimise", PyObj.module "optimise"), ("CurieOptimise", PyObj.value co),
    ("parallel", PyObj.module "parallel"), ("CurieParallel", PyObj.value cp),
    ("mapping", PyObj.module "mapping"),
    ("transform_coordinates", PyObj.value tc), ("grid", PyObj.value gr),
    ("trim", PyObj.value tr) ]

/-- A sample assignment of submodule namespaces used to witness the
theorems: submodule `m` binds every name `n` to the string `m ++ "." ++ n`. -/
def demoSubNS : String → String → Option String :=
  fun m n => some (m ++ "." ++ n)

/-- The concrete state produced by importing the package over
`demoSubNS`. -/
def demoFinalState : PyState String :=
  { ns := finalNs "curie.CurieGrid" "curie.bouligand2009" "curie.tanaka1999"
      "curie.maus1995" "curie.ComputeTanaka" "optimise.CurieOptimise"
      "parallel.CurieParallel" "mapping.transform_coordinates" "mapping.grid"
      "mapping.trim",
    effects := [] }

/-- The fourteen names bound in the package namespace after import, in
CPython insertion order: the four submodule objects interleaved with
the ten re-exported symbols. -/
def theFourteenNames : List String :=
  [ "curie", "CurieGrid", "bouligand2009", "tanaka1999", "maus1995",
    "ComputeTanaka", "optimise", "CurieOptimise", "parallel", "CurieParallel",
    "mapping", "transform_coordinates", "grid", "trim" ]

/-- Whether a statement is an effectful expression statement. -/
def isCallStmt : Stmt → Bool
  | Stmt.call _ => true
  | _ => false

/-- Big-step derivations for binding the names of one
`from ... import ...` statement: a relational presentation of
`bindNames`, used to state determinism of module initialisation as a
property of derivations rather than of a Lean function. -/
inductive BindNamesR {α : Type} (subNS : String → String → Option α) (m : String) :
    List String → Ns α → Ns α → Prop where
  | nil (ns : Ns α) : BindNamesR subNS m [] ns ns
  | cons (n : String) (rest : List String) (ns ns2 : Ns α) (v : α)
      (h : subNS m n = some v)
      (hrest : BindNamesR subNS m rest (dictSet ns n (PyObj.value v)) ns2) :
      BindNamesR subNS m (n :: rest) ns ns2

/-- Big-step derivations for executing a module body: a relational
presentation of `runStmts` (successful runs only). -/
inductive ExecR {α : Type} (subNS : String → String → Option α) :
    List Stmt → PyState α → PyState α → Prop where
  | nil (st : PyState α) : ExecR subNS [] st st
  | fromImport (m : String) (names : List String) (rest : List Stmt)
      (st : PyState α) (ns2 : Ns α) (st2 : PyState α)
      (h : BindNamesR subNS m names (dictSet st.ns m (PyObj.module m)) ns2)
      (hrest : ExecR subNS rest { st with ns := ns2 } st2) :
      ExecR subNS (Stmt.fromImport m names :: rest) st st2
  | defFun (n : String) (rest : List Stmt) (st st2 : PyState α)
      (hrest : ExecR subNS rest
        { st with ns := dictSet st.ns n (PyObj.defined n) } st2) :
      ExecR subNS (Stmt.defFun n :: rest) st st2
  | defClass (n : String) (rest : List Stmt) (st st2 : PyState α)
      (hrest : ExecR subNS rest
        { st with ns := dictSet st.ns n (PyObj.defined n) } st2) :
      ExecR subNS (Stmt.defClass n :: rest) st st2
  | assign (n : String) (rest : List Stmt) (st st2 : PyState α)
      (hrest : ExecR subNS rest
        { st with ns := dictSet st.ns n (PyObj.defined n) } st2) :
      ExecR subNS (Stmt.assign n :: rest) st st2
  | call (effs : List Effect) (rest : List Stmt) (st st2 : PyState α)
      (hrest : ExecR subNS rest
        { st with effects := st.effects ++ effs } st2) :
      ExecR subNS (Stmt.call effs :: rest) st st2

/-- Evaluating the entry module: when each submodule defines the names
imported from it, the import succeeds, produces no side effects, and
yields exactly the namespace `finalNs` of the ten re-exported objects
and the four submodule objects. -/
theorem importPycurious_eq {α : Type} (subNS : String → String → Option α)
    (g b t m ct co cp tc gr tr : α)
    (h1 : subNS "curie" "CurieGrid" = some g)
    (h2 : subNS "curie" "bouligand2009" = some b)
    (h3 : subNS "curie" "tanaka1999" = some t)
    (h4 : subNS "curie" "maus1995" = some m)
    (h5 : subNS "curie" "ComputeTanaka" = some ct)
    (h6 : subNS "optimise" "CurieOptimise" = some co)
    (h7 : subNS "parallel" "CurieParallel" = some cp)
    (h8 : subNS "mapping" "transform_coordinates" = some tc)
    (h9 : subNS "mapping" "grid" = some gr)
    (h10 : subNS "mapping" "trim" = some tr) :
    importPycurious subNS =
      Except.ok { ns := finalNs g b t m ct co cp tc gr tr, effects := [] } := by
  simp [importPycurious, initModuleStmts, runStmts, execStmt, bindNames, dictSet,
    h1, h2, h3, h4, h5, h6, h7, h8, h9, h10, finalNs]

/-- `BindNamesR` derivations are deterministic: two derivations for the
same statement from the same namespace end in the same namespace. -/
theorem bindNamesR_det {α : Type} (subNS : String → String → Option α) (m : String)
    {names : List String} {ns a b : Ns α}
    (h1 : BindNamesR subNS m names ns a) (h2 : BindNamesR subNS m names ns b) :
    a = b := by
  induction h1 generalizing b with
  | nil ns => cases h2; rfl
  | cons n rest ns ns2 v h hrest ih =>
    cases h2 with
    | cons _ _ _ _ v2 h2v h2rest =>
      rw [h] at h2v
      injection h2v with hv
      subst hv
      exact ih h2rest

/-- `ExecR` derivations are deterministic: two derivations for the same
module body from the same state end in the same state. -/
theorem execR_det {α : Type} (subNS : String → String → Option α)
    {stmts : List Stmt} {st a b : PyState α}
    (h1 : ExecR subNS stmts st a) (h2 : ExecR subNS stmts st b) :
    a = b := by
  induction h1 generalizing b with
  | nil st => cases h2; rfl
  | fromImport m names rest st ns2 st2 h hrest ih =>
    cases h2 with
    | fromImport _ _ _ _ ns2b _ hb hrestb =>
      have hns : ns2 = ns2b := bindNamesR_det subNS m h hb
      subst hns
      exact ih hrestb
  | defFun n rest st st2 hrest ih =>
    cases h2 with
    | defFun _ _ _ _ hrestb => exact ih hrestb
  | defClass n rest st st2 hrest ih =>
    cases h2 with
    | defClass _ _ _ _ hrestb => exact ih hrestb
  | assign n rest st st2 hrest ih =>
    cases h2 with
    | assign _ _ _ _ hrestb => exact ih hrestb
  | call effs rest st st2 hrest ih =>
    cases h2 with
    | call _ _ _ _ hrestb => exact ih hrestb

/-- The functional semantics is adequate for the relational one: a
successful `bindNames` run yields a `BindNamesR` derivation. -/
theorem bindNames_ok_bindNamesR {α : Type} (subNS : String → String → Option α)
    (m : String) :
    ∀ (names : List String) (ns ns2 : Ns α),
      bindNames subNS m names ns = Except.ok ns2 → BindNamesR subNS m names ns ns2 := by
  intro names
  induction names with
  | nil =>
    intro ns ns2 h
    simp only [bindNames] at h
    injection h with h
    subst h
    exact BindNamesR.nil ns
  | cons n rest ih =>
    intro ns ns2 h
    cases hv : subNS m n with
    | some v =>
      simp only [bindNames, hv] at h
      exact BindNamesR.cons n rest ns ns2 v hv (ih _ _ h)
    | none =>
      simp [bindNames, hv] at h

/-- The functional semantics is adequate for the relational one: a
successful `runStmts` run yields an `ExecR` derivation. -/
theorem runStmts_ok_execR {α : Type} (subNS : String → String → Option α) :
    ∀ (stmts : List Stmt) (st st2 : PyState α),
      runStmts subNS stmts st = Except.ok st2 → ExecR subNS stmts st st2 := by
  intro stmts
  induction stmts with
  | nil =>
    intro st st2 h
    simp only [runStmts] at h
    injection h with h
    subst h
    exact ExecR.nil st
  | cons s rest ih =>
    intro st st2 h
    cases s with
    | fromImport m names =>
      cases hb : bindNames subNS m names (dictSet st.ns m (PyObj.module m)) with
      | ok ns2 =>
        simp only [runStmts, execStmt, hb] at h
        exact ExecR.fromImport m names rest st ns2 st2
          (bindNames_ok_bindNamesR subNS m names _ ns2 hb) (ih _ _ h)
      | error e =>
        simp [runStmts, execStmt, hb] at h
    | defFun n =>
      simp only [runStmts, execStmt] at h
      exact ExecR.defFun n rest st st2 (ih _ _ h)
    | defClass n =>
      simp only [runStmts, execStmt] at h
      exact ExecR.defClass n rest st st2 (ih _ _ h)
    | assign n =>
      simp only [runStmts, execStmt] at h
      exact ExecR.assign n rest st st2 (ih _ _ h)
    | call effs =>
      simp only [runStmts, execStmt] at h
      exact ExecR.call effs rest st st2 (ih _ _ h)

/-- A module body without effectful expression statements leaves the
effect trace unchanged. -/
theorem runStmts_effects_invariant {α : Type} (subNS : String → String → Option α) :
    ∀ (stmts : List Stmt) (st st2 : PyState α),
      (∀ s ∈ stmts, isCallStmt s = false) →
      runStmts subNS stmts st = Except.ok st2 → st2.effects = st.effects := by
  intro stmts
  induction stmts with
  | nil =>
    intro st st2 _ h
    simp only [runStmts] at h
    injection h with h
    subst h
    rfl
  | cons s rest ih =>
    intro st st2 hnc h
    have hncs : isCallStmt s = false := hnc s (List.mem_cons_self s rest)
    have hncr : ∀ s2 ∈ rest, isCallStmt s2 = false :=
      fun s2 hs2 => hnc s2 (List.mem_cons_of_mem s hs2)
    cases s with
    | fromImport m names =>
      cases hb : bindNames subNS m names (dictSet st.ns m (PyObj.module m)) with
      | ok ns2 =>
        simp only [runStmts, execStmt, hb] at h
        exact ih { st with ns := ns2 } st2 hncr h
      | error e =>
        simp [runStmts, execStmt, hb] at h
    | defFun n =>
      simp only [runStmts, execStmt] at h
      exact ih { st with ns := dictSet st.ns n (PyObj.defined n) } st2 hncr h
    | defClass n =>
      simp only [runStmts, execStmt] at h
      exact ih { st with ns := dictSet st.ns n (PyObj.defined n) } st2 hncr h
    | assign n =>
      simp only [runStmts, execStmt] at h
      exact ih { st with ns := dictSet st.ns n (PyObj.defined n) } st2 hncr h
    | call effs =>
      simp [isCallStmt] at hncs

/-- The derivation witnessing that the entry module executes over the
sample submodule namespaces `demoSubNS` to `demoFinalState`. -/
theorem demo_execR :
    ExecR demoSubNS initModuleStmts { ns := [], effects := [] } demoFinalState :=
  runStmts_ok_execR demoSubNS initModuleStmts _ demoFinalState rfl

/-- C1: importing the pycurious package binds every one of the ten
enumerated names (CurieGrid, bouligand2009, tanaka1999, maus1995,
ComputeTanaka, CurieOptimise, CurieParallel, transform_coordinates,
grid, trim) in the package namespace, and the entry module's re-export
surface is exactly those ten symbols. -/
theorem claim1_reexport_surface {α : Type} (subNS : String → String → Option α)
    (g b t m ct co cp tc gr tr : α)
    (h1 : subNS "curie" "CurieGrid" = some g)
    (h2 : subNS "curie" "bouligand2009" = some b)
    (h3 : subNS "curie" "tanaka1999" = some t)
    (h4 : subNS "curie" "maus1995" = some m)
    (h5 : subNS "curie" "ComputeTanaka" = some ct)
    (h6 : subNS "optimise" "CurieOptimise" = some co)
    (h7 : subNS "parallel" "CurieParallel" = some cp)
    (h8 : subNS "mapping" "transform_coordinates" = some tc)
    (h9 : subNS "mapping" "grid" = some gr)
    (h10 : subNS "mapping" "trim" = some tr) :
    reexportedNames initModuleStmts = theTenSymbols ∧
    ∃ st, importPycurious subNS = Except.ok st ∧
      ∀ n ∈ theTenSymbols, (lookupNs st.ns n).isSome = true := by
  refine ⟨rfl, _,
    importPycurious_eq subNS g b t m ct co cp tc gr tr h1 h2 h3 h4 h5 h6 h7 h8 h9 h10, ?_⟩
  intro n hn
  simp only [theTenSymbols, List.mem_cons, List.not_mem_nil, or_false] at hn
  rcases hn with rfl | rfl | rfl | rfl | rfl | rfl | rfl | rfl | rfl | rfl <;>
    simp [finalNs, lookupNs]

/-- Witness for C1 at the sample submodule namespaces. -/
theorem claim1_witness :
    reexportedNames initModuleStmts = theTenSymbols ∧
    (lookupNs demoFinalState.ns "CurieGrid").isSome = true := by
  obtain ⟨hsurface, st, hok, hall⟩ :=
    claim1_reexport_surface demoSubNS _ _ _ _ _ _ _ _ _ _
      rfl rfl rfl rfl rfl rfl rfl rfl rfl rfl
  have hst2 : importPycurious demoSubNS = Except.ok demoFinalState := rfl
  rw [hok] at hst2
  injection hst2 with hst
  subst hst
  exact ⟨hsurface, hall "CurieGrid" (by simp [theTenSymbols])⟩

/-- C2: the five symbols CurieGrid, bouligand2009, tanaka1999, maus1995
and ComputeTanaka are each imported from the curie submodule: after a
successful import, the binding of each of these names in the package
namespace is exactly the object of the same name in pycurious.curie. -/
theorem claim2_curie_bindings {α : Type} (subNS : String → String → Option α)
    (g b t m ct co cp tc gr tr : α)
    (h1 : subNS "curie" "CurieGrid" = some g)
    (h2 : subNS "curie" "bouligand2009" = some b)
    (h3 : subNS "curie" "tanaka1999" = some t)
    (h4 : subNS "curie" "maus1995" = some m)
    (h5 : subNS "curie" "ComputeTanaka" = some ct)
    (h6 : subNS "optimise" "CurieOptimise" = some co)
    (h7 : subNS "parallel" "CurieParallel" = some cp)
    (h8 : subNS "mapping" "transform_coordinates" = some tc)
    (h9 : subNS "mapping" "grid" = some gr)
    (h10 : subNS "mapping" "trim" = some tr) :
    ∃ st, importPycurious subNS = Except.ok st ∧
      ∀ n ∈ ["CurieGrid", "bouligand2009", "tanaka1999", "maus1995", "ComputeTanaka"],
        lookupNs st.ns n = Option.map PyObj.value (subNS "curie" n) := by
  refine ⟨_,
    importPycurious_eq subNS g b t m ct co cp tc gr tr h1 h2 h3 h4 h5 h6 h7 h8 h9 h10, ?_⟩
  intro n hn
  simp only [List.mem_cons, List.not_mem_nil, or_false] at hn
  rcases hn with rfl | rfl | rfl | rfl | rfl <;>
    simp [finalNs, lookupNs, h1, h2, h3, h4, h5]

/-- Witness for C2 at the sample submodule namespaces. -/
theorem claim2_witness :
    lookupNs demoFinalState.ns "CurieGrid" =
      Option.map PyObj.value (demoSubNS "curie" "CurieGrid") := by
  obtain ⟨st, hok, hall⟩ :=
    claim2_curie_bindings demoSubNS _ _ _ _ _ _ _ _ _ _
      rfl rfl rfl rfl rfl rfl rfl rfl rfl rfl
  have hst2 : importPycurious demoSubNS = Except.ok demoFinalState := rfl
  rw [hok] at hst2
  injection hst2 with hst
  subst hst
  exact hall "CurieGrid" (by simp)

/-- C3: the three utility symbols transform_coordinates, grid and trim
are each imported from the mapping submodule: after a successful
import, the binding of each of these names in the package namespace is
exactly the object of the same name in pycurious.mapping. -/
theorem claim3_mapping_bindings {α : Type} (subNS : String → String → Option α)
    (g b t m ct co cp tc gr tr : α)
    (h1 : subNS "curie" "CurieGrid" = some g)
    (h2 : subNS "curie" "bouligand2009" = some b)
    (h3 : subNS "curie" "tanaka1999" = some t)
    (h4 : subNS "curie" "maus1995" = some m)
    (h5 : subNS "curie" "ComputeTanaka" = some ct)
    (h6 : subNS "optimise" "CurieOptimise" = some co)
    (h7 : subNS "parallel" "CurieParallel" = some cp)
    (h8 : subNS "mapping" "transform_coordinates" = some tc)
    (h9 : subNS "mapping" "grid" = some gr)
    (h10 : subNS "mapping" "trim" = some tr) :
    ∃ st, importPycurious subNS = Except.ok st ∧
      ∀ n ∈ ["transform_coordinates", "grid", "trim"],
        lookupNs st.ns n = Option.map PyObj.value (subNS "mapping" n) := by
  refine ⟨_,
    importPycurious_eq subNS g b t m ct co cp tc gr tr h1 h2 h3 h4 h5 h6 h7 h8 h9 h10, ?_⟩
  intro n hn
  simp only [List.mem_cons, List.not_mem_nil, or_false] at hn
  rcases hn with rfl | rfl | rfl <;>
    simp [finalNs, lookupNs, h8, h9, h10]

/-- Witness for C3 at the sample submodule namespaces. -/
theorem claim3_witness :
    lookupNs demoFinalState.ns "trim" =
      Option.map PyObj.value (demoSubNS "mapping" "trim") := by
  obtain ⟨st, hok, hall⟩ :=
    claim3_mapping_bindings demoSubNS _ _ _ _ _ _ _ _ _ _
      rfl rfl rfl rfl rfl rfl rfl rfl rfl rfl
  have hst2 : importPycurious demoSubNS = Except.ok demoFinalState := rfl
  rw [hok] at hst2
  injection hst2 with hst
  subst hst
  exact hall "trim" (by simp)

/-- C4: CurieOptimise is imported from the optimise submodule and
CurieParallel from the parallel submodule: after a successful import,
the binding of CurieOptimise equals the object CurieOptimise of
pycurious.optimise and the binding of CurieParallel equals the object
CurieParallel of pycurious.parallel. -/
theorem claim4_optimise_parallel_bindings {α : Type} (subNS : String → String → Option α)
    (g b t m ct co cp tc gr tr : α)
    (h1 : subNS "curie" "CurieGrid" = some g)
    (h2 : subNS "curie" "bouligand2009" = some b)
    (h3 : subNS "curie" "tanaka1999" = some t)
    (h4 : subNS "curie" "maus1995" = some m)
    (h5 : subNS "curie" "ComputeTanaka" = some ct)
    (h6 : subNS "optimise" "CurieOptimise" = some co)
    (h7 : subNS "parallel" "CurieParallel" = some cp)
    (h8 : subNS "mapping" "transform_coordinates" = some tc)
    (h9 : subNS "mapping" "grid" = some gr)
    (h10 : subNS "mapping" "trim" = some tr) :
    ∃ st, importPycurious subNS = Except.ok st ∧
      lookupNs st.ns "CurieOptimise" =
        Option.map PyObj.value (subNS "optimise" "CurieOptimise") ∧
      lookupNs st.ns "CurieParallel" =
        Option.map PyObj.value (subNS "parallel" "CurieParallel") := by
  refine ⟨_,
    importPycurious_eq subNS g b t m ct co cp tc gr tr h1 h2 h3 h4 h5 h6 h7 h8 h9 h10,
    ?_, ?_⟩
  · simp [finalNs, lookupNs, h6]
  · simp [finalNs, lookupNs, h7]

/-- Witness for C4 at the sample submodule namespaces. -/
theorem claim4_witness :
    lookupNs demoFinalState.ns "CurieOptimise" =
      Option.map PyObj.value (demoSubNS "optimise" "CurieOptimise") ∧
    lookupNs demoFinalState.ns "CurieParallel" =
      Option.map PyObj.value (demoSubNS "parallel" "CurieParallel") := by
  obtain ⟨st, hok, hco, hcp⟩ :=
    claim4_optimise_parallel_bindings demoSubNS _ _ _ _ _ _ _ _ _ _
      rfl rfl rfl rfl rfl rfl rfl rfl rfl rfl
  have hst2 : importPycurious demoSubNS = Except.ok demoFinalState := rfl
  rw [hok] at hst2
  injection hst2 with hst
  subst hst
  exact ⟨hco, hcp⟩

/-- C5: the entry module consists of exactly four statements, all of
them from-import statements, with no statement that defines a name or
performs an effect; its source is five raw lines of which one is the
coding-declaration comment and the other four are the import lines. -/
theorem claim5_four_import_statements :
    initModuleStmts.length = 4 ∧
    initModuleStmts.all isFromImport = true ∧
    initModuleStmts.all (fun s => !(definesOwnName s) && !(isCallStmt s)) = true ∧
    initModuleLines.length = 5 ∧
    (initModuleLines.filter (fun l => !(isCommentLine l))).length = 4 ∧
    initModuleLines.all (fun l => isCommentLine l || isImportLine l) = true := by
  decide

/-- C6: the entry module defines no function, class or constant of its
own, and after a successful import every binding in the package
namespace is either one of the four submodule objects or an object
imported from one of the four submodules. -/
theorem claim6_no_own_definitions {α : Type} (subNS : String → String → Option α)
    (g b t m ct co cp tc gr tr : α)
    (h1 : subNS "curie" "CurieGrid" = some g)
    (h2 : subNS "curie" "bouligand2009" = some b)
    (h3 : subNS "curie" "tanaka1999" = some t)
    (h4 : subNS "curie" "maus1995" = some m)
    (h5 : subNS "curie" "ComputeTanaka" = some ct)
    (h6 : subNS "optimise" "CurieOptimise" = some co)
    (h7 : subNS "parallel" "CurieParallel" = some cp)
    (h8 : subNS "mapping" "transform_coordinates" = some tc)
    (h9 : subNS "mapping" "grid" = some gr)
    (h10 : subNS "mapping" "trim" = some tr) :
    (initModuleStmts.all (fun s => !(definesOwnName s)) = true) ∧
    ∃ st, importPycurious subNS = Except.ok st ∧
      ∀ p ∈ st.ns,
        (p.1 ∈ theFourSubmodules ∧ p.2 = PyObj.module p.1) ∨
        (∃ msrc ∈ theFourSubmodules,
          Option.map PyObj.value (subNS msrc p.1) = some p.2) := by
  refine ⟨by decide, _,
    importPycurious_eq subNS g b t m ct co cp tc gr tr h1 h2 h3 h4 h5 h6 h7 h8 h9 h10, ?_⟩
  intro p hp
  simp only [finalNs, List.mem_cons, List.not_mem_nil, or_false] at hp
  rcases hp with rfl | rfl | rfl | rfl | rfl | rfl | rfl | rfl | rfl | rfl | rfl | rfl | rfl | rfl
  · exact Or.inl ⟨by simp [theFourSubmodules], rfl⟩
  · exact Or.inr ⟨"curie", by simp [theFourSubmodules], by simp [h1]⟩
  · exact Or.inr ⟨"curie", by simp [theFourSubmodules], by simp [h2]⟩
  · exact Or.inr ⟨"curie", by simp [theFourSubmodules], by simp [h3]⟩
  · exact Or.inr ⟨"curie", by simp [theFourSubmodules], by simp [h4]⟩
  · exact Or.inr ⟨"curie", by simp [theFourSubmodules], by simp [h5]⟩
  · exact Or.inl ⟨by simp [theFourSubmodules], rfl⟩
  · exact Or.inr ⟨"optimise", by simp [theFourSubmodules], by simp [h6]⟩
  · exact Or.inl ⟨by simp [theFourSubmodules], rfl⟩
  · exact Or.inr ⟨"parallel", by simp [theFourSubmodules], by simp [h7]⟩
  · exact Or.inl ⟨by simp [theFourSubmodules], rfl⟩
  · exact Or.inr ⟨"mapping", by simp [theFourSubmodules], by simp [h8]⟩
  · exact Or.inr ⟨"mapping", by simp [theFourSubmodules], by simp [h9]⟩
  · exact Or.inr ⟨"mapping", by simp [theFourSubmodules], by simp [h10]⟩

/-- Witness for C6 at the sample submodule namespaces. -/
theorem claim6_witness :
    (initModuleStmts.all (fun s => !(definesOwnName s)) = true) ∧
    ((("CurieGrid", PyObj.value "curie.CurieGrid").1 ∈ theFourSubmodules ∧
      ("CurieGrid", PyObj.value "curie.CurieGrid").2 =
        PyObj.module ("CurieGrid", PyObj.value "curie.CurieGrid").1) ∨
    (∃ msrc ∈ theFourSubmodules,
      Option.map PyObj.value (demoSubNS msrc ("CurieGrid",
        PyObj.value "curie.CurieGrid").1) =
        some ("CurieGrid", PyObj.value "curie.CurieGrid").2)) := by
  obtain ⟨hdefs, st, hok, hall⟩ :=
    claim6_no_own_definitions demoSubNS _ _ _ _ _ _ _ _ _ _
      rfl rfl rfl rfl rfl rfl rfl rfl rfl rfl
  have hst2 : importPycurious demoSubNS = Except.ok demoFinalState := rfl
  rw [hok] at hst2
  injection hst2 with hst
  subst hst
  refine ⟨hdefs, ?_⟩
  exact hall ("CurieGrid", PyObj.value "curie.CurieGrid")
    (by simp [demoFinalState, finalNs])

/-- C7: importing the package performs no networking and no persistence
side effects: a successful evaluation of the entry module leaves the
effect trace empty, so in particular no network connection is opened
and no file is written. -/
theorem claim7_no_side_effects {α : Type} (subNS : String → String → Option α)
    (st : PyState α) (h : importPycurious subNS = Except.ok st) :
    st.effects = [] ∧
    (∀ tgt, Effect.network tgt ∉ st.effects) ∧
    (∀ p, Effect.fileWrite p ∉ st.effects) := by
  have he : st.effects = [] :=
    runStmts_effects_invariant subNS initModuleStmts { ns := [], effects := [] } st
      (by decide) h
  refine ⟨he, ?_, ?_⟩ <;> simp [he]

/-- Witness for C7 at the sample submodule namespaces. -/
theorem claim7_witness :
    demoFinalState.effects = [] ∧
    (∀ tgt, Effect.network tgt ∉ demoFinalState.effects) ∧
    (∀ p, Effect.fileWrite p ∉ demoFinalState.effects) :=
  claim7_no_side_effects demoSubNS demoFinalState rfl

/-- C8: the re-export is identity-preserving: for every re-exported
symbol, the object bound to that name in the package namespace after a
successful import is the very same object bound to that name in its
source submodule. -/
theorem claim8_identity_preserving {α : Type} (subNS : String → String → Option α)
    (g b t m ct co cp tc gr tr : α)
    (h1 : subNS "curie" "CurieGrid" = some g)
    (h2 : subNS "curie" "bouligand2009" = some b)
    (h3 : subNS "curie" "tanaka1999" = some t)
    (h4 : subNS "curie" "maus1995" = some m)
    (h5 : subNS "curie" "ComputeTanaka" = some ct)
    (h6 : subNS "optimise" "CurieOptimise" = some co)
    (h7 : subNS "parallel" "CurieParallel" = some cp)
    (h8 : subNS "mapping" "transform_coordinates" = some tc)
    (h9 : subNS "mapping" "grid" = some gr)
    (h10 : subNS "mapping" "trim" = some tr) :
    ∃ st, importPycurious subNS = Except.ok st ∧
      ∀ p ∈ reexportSources,
        lookupNs st.ns p.2 = Option.map PyObj.value (subNS p.1 p.2) := by
  refine ⟨_,
    importPycurious_eq subNS g b t m ct co cp tc gr tr h1 h2 h3 h4 h5 h6 h7 h8 h9 h10, ?_⟩
  intro p hp
  simp only [reexportSources, List.mem_cons, List.not_mem_nil, or_false] at hp
  rcases hp with rfl | rfl | rfl | rfl | rfl | rfl | rfl | rfl | rfl | rfl <;>
    simp [finalNs, lookupNs, h1, h2, h3, h4, h5, h6, h7, h8, h9, h10]

/-- Witness for C8 at the sample submodule namespaces. -/
theorem claim8_witness :
    lookupNs demoFinalState.ns "transform_coordinates" =
      Option.map PyObj.value (demoSubNS "mapping" "transform_coordinates") := by
  obtain ⟨st, hok, hall⟩ :=
    claim8_identity_preserving demoSubNS _ _ _ _ _ _ _ _ _ _
      rfl rfl rfl rfl rfl rfl rfl rfl rfl rfl
  have hst2 : importPycurious demoSubNS = Except.ok demoFinalState := rfl
  rw [hok] at hst2
  injection hst2 with hst
  subst hst
  exact hall ("mapping", "transform_coordinates") (by simp [reexportSources])

/-- C9: module initialisation is deterministic: any two executions of
the entry module's statements from the empty state over the same
submodule definitions end in the same state (so in particular the same
namespace), and the four submodules are initialised in the fixed order
curie, optimise, parallel, mapping. -/
theorem claim9_deterministic_in_order {α : Type} (subNS : String → String → Option α) :
    (∀ st1 st2 : PyState α,
        ExecR subNS initModuleStmts { ns := [], effects := [] } st1 →
        ExecR subNS initModuleStmts { ns := [], effects := [] } st2 →
        st1.ns = st2.ns ∧ st1 = st2) ∧
    importedModules initModuleStmts = theFourSubmodules := by
  refine ⟨?_, rfl⟩
  intro st1 st2 hr1 hr2
  have heq : st1 = st2 := execR_det subNS hr1 hr2
  exact ⟨congrArg PyState.ns heq, heq⟩

/-- Witness for C9: a derivation over the sample submodule namespaces,
compared with itself. -/
theorem claim9_witness :
    (demoFinalState.ns = demoFinalState.ns ∧ demoFinalState = demoFinalState) ∧
    importedModules initModuleStmts = theFourSubmodules :=
  ⟨(claim9_deterministic_in_order demoSubNS).1 demoFinalState demoFinalState
      demo_execR demo_execR,
    (claim9_deterministic_in_order demoSubNS).2⟩

/-- C10: the entry module defines no __all__, and after a successful
package import its namespace binds exactly the fourteen names: the
four submodule objects curie, optimise, parallel and mapping alongside
the ten re-exported symbols, all public, so a star-import exports all
fourteen of them. -/
theorem claim10_star_export {α : Type} (subNS : String → String → Option α)
    (g b t m ct co cp tc gr tr : α)
    (h1 : subNS "curie" "CurieGrid" = some g)
    (h2 : subNS "curie" "bouligand2009" = some b)
    (h3 : subNS "curie" "tanaka1999" = some t)
    (h4 : subNS "curie" "maus1995" = some m)
    (h5 : subNS "curie" "ComputeTanaka" = some ct)
    (h6 : subNS "optimise" "CurieOptimise" = some co)
    (h7 : subNS "parallel" "CurieParallel" = some cp)
    (h8 : subNS "mapping" "transform_coordinates" = some tc)
    (h9 : subNS "mapping" "grid" = some gr)
    (h10 : subNS "mapping" "trim" = some tr) :
    (initModuleStmts.all (fun s => !(s = Stmt.assign "__all__")) = true) ∧
    ∃ st, importPycurious subNS = Except.ok st ∧
      lookupNs st.ns "__all__" = none ∧
      st.ns.map Prod.fst = theFourteenNames ∧
      starExport st.ns = theFourteenNames ∧
      (∀ m2 ∈ theFourSubmodules, lookupNs st.ns m2 = some (PyObj.module m2)) := by
  refine ⟨by decide, _,
    importPycurious_eq subNS g b t m ct co cp tc gr tr h1 h2 h3 h4 h5 h6 h7 h8 h9 h10,
    ?_, ?_, ?_, ?_⟩
  · simp [finalNs, lookupNs]
  · simp [finalNs, theFourteenNames]
  · show starExport (finalNs g b t m ct co cp tc gr tr) = theFourteenNames
    have hmap : (finalNs g b t m ct co cp tc gr tr).map Prod.fst = theFourteenNames := by
      simp [finalNs, theFourteenNames]
    unfold starExport
    rw [hmap]
    decide
  · intro m2 hm2
    simp only [theFourSubmodules, List.mem_cons, List.not_mem_nil, or_false] at hm2
    rcases hm2 with rfl | rfl | rfl | rfl <;> simp [finalNs, lookupNs]

/-- Witness for C10 at the sample submodule namespaces. -/
theorem claim10_witness :
    (initModuleStmts.all (fun s => !(s = Stmt.assign "__all__")) = true) ∧
    lookupNs demoFinalState.ns "__all__" = none ∧
    demoFinalState.ns.map Prod.fst = theFourteenNames ∧
    starExport demoFinalState.ns = theFourteenNames ∧
    lookupNs demoFinalState.ns "curie" = some (PyObj.module "curie") := by
  obtain ⟨hassign, st, hok, hnone, hmap, hstar, hmods⟩ :=
    claim10_star_export demoSubNS _ _ _ _ _ _ _ _ _ _
      rfl rfl rfl rfl rfl rfl rfl rfl rfl rfl
  have hst2 : importPycurious demoSubNS = Except.ok demoFinalState := rfl
  rw [hok] at hst2
  injection hst2 with hst
  subst hst
  exact ⟨hassign, hnone, hmap, hstar, hmods "curie" (by simp [theFourSubmodules])⟩

end Pycurious
